import Mathlib

/-! Verification of the multi-agent handoff and context-truncation core of the
`examples/revenue_experiments` voice-agent scripts (`customer_support_agent.py`
and `real_estate_agent.py`).

The chat-item data model, the `_truncate_chat_ctx` helper, the `on_enter`
history carry-over, `_transfer_to_agent`, `UserData.summarize` and the tool
operations are embedded as executable Lean definitions that mirror the Python
source line by line; Python `Optional` becomes `Option`, Python truthiness of
optional strings/ints is made explicit, floats are modelled as rationals, and
the Python `dict` registry of agents becomes an association list. -/

namespace Agents

/-- Role of a chat message (livekit `llm.ChatItem` roles used by the scripts). -/
inductive ChatRole
  | system
  | user
  | assistant
deriving DecidableEq

/-- One conversation item: a message, a function call (tool call), or a
function-call output (tool result), mirroring livekit `llm.ChatItem` as used
by `_truncate_chat_ctx` (fields `type`, `role`, `id`). -/
inductive ChatItem
  | message (id : String) (role : ChatRole) (content : String)
  | functionCall (id : String) (name : String) (args : String)
  | functionCallOutput (id : String) (callId : String) (output : String)
deriving DecidableEq

/-- The `item.id` attribute. -/
def ChatItem.id : ChatItem → String
  | .message i _ _ => i
  | .functionCall i _ _ => i
  | .functionCallOutput i _ _ => i

/-- Python `item.type in ["function_call", "function_call_output"]`. -/
def ChatItem.isToolItem : ChatItem → Bool
  | .functionCall _ _ _ => true
  | .functionCallOutput _ _ _ => true
  | .message _ _ _ => false

/-- Python `item.type == "message" and item.role == "system"`. -/
def ChatItem.isSystemMessage : ChatItem → Bool
  | .message _ .system _ => true
  | _ => false

/-- The `_valid_item` closure of `_truncate_chat_ctx`
(customer_support_agent.py lines 257-265, real_estate_agent.py 204-212). -/
def validItem (keep_system_message keep_function_call : Bool) (item : ChatItem) : Bool :=
  if !keep_system_message && item.isSystemMessage then false
  else if !keep_function_call && item.isToolItem then false
  else true

/-- The collection loop of `_truncate_chat_ctx` (lines 267-272): iterate over
`reversed(items)` (passed here already reversed), append valid items to the
accumulator, and stop as soon as `len(new_items) >= keep_last_n_messages`. -/
def truncateLoop (keepN : Nat) (ks kf : Bool) : List ChatItem → List ChatItem → List ChatItem
  | [], acc => acc
  | item :: rest, acc =>
    let acc2 := if validItem ks kf item then acc ++ [item] else acc
    if keepN ≤ acc2.length then acc2 else truncateLoop keepN ks kf rest acc2

/-- `BaseAgent._truncate_chat_ctx` (customer_support_agent.py lines 248-279):
collect the last `keep_last_n_messages` valid items scanning from most recent
to oldest, restore chronological order, then pop leading
`function_call`/`function_call_output` items. -/
def truncate_chat_ctx (items : List ChatItem) (keep_last_n_messages : Nat)
    (keep_system_message keep_function_call : Bool) : List ChatItem :=
  let new_items :=
    (truncateLoop keep_last_n_messages keep_system_message keep_function_call
      items.reverse []).reverse
  new_items.dropWhile ChatItem.isToolItem

/-- Spec-side description used to compare against `truncate_chat_ctx` (spec
section 4.1 / testable property 2): the `n` most recent eligible items of
`items`, in their original chronological order. -/
def lastEligible (items : List ChatItem) (n : Nat) (ks kf : Bool) : List ChatItem :=
  ((items.filter (validItem ks kf)).reverse.take n).reverse

/-- The history carry-over step of `BaseAgent.on_enter` (customer_support_agent.py
lines 222-230): truncate the previous agent's items with
`keep_function_call=True` (and the defaults `keep_last_n_messages=6`,
`keep_system_message=False`), drop items whose id already exists in the
receiving buffer, and extend the receiving buffer with the rest. -/
def carry_over (chat_ctx_items prev_items : List ChatItem) : List ChatItem :=
  let items_copy := truncate_chat_ctx prev_items 6 false true
  let existing_ids := chat_ctx_items.map ChatItem.id
  let items_copy2 := items_copy.filter (fun item => decide (item.id ∉ existing_ids))
  chat_ctx_items ++ items_copy2

/-! Helper lemmas about the truncation loop. -/

theorem truncateLoop_valid_stop (keepN : Nat) (ks kf : Bool) (item : ChatItem)
    (rest acc : List ChatItem) (hv : validItem ks kf item = true)
    (hstop : keepN ≤ acc.length + 1) :
    truncateLoop keepN ks kf (item :: rest) acc = acc ++ [item] := by
  simp [truncateLoop, hv, hstop]

theorem truncateLoop_valid_go (keepN : Nat) (ks kf : Bool) (item : ChatItem)
    (rest acc : List ChatItem) (hv : validItem ks kf item = true)
    (hstop : ¬ keepN ≤ acc.length + 1) :
    truncateLoop keepN ks kf (item :: rest) acc =
      truncateLoop keepN ks kf rest (acc ++ [item]) := by
  simp [truncateLoop, hv, hstop]

theorem truncateLoop_invalid_stop (keepN : Nat) (ks kf : Bool) (item : ChatItem)
    (rest acc : List ChatItem) (hv : ¬ validItem ks kf item = true)
    (hstop : keepN ≤ acc.length) :
    truncateLoop keepN ks kf (item :: rest) acc = acc := by
  simp [truncateLoop, hv, hstop]

theorem truncateLoop_invalid_go (keepN : Nat) (ks kf : Bool) (item : ChatItem)
    (rest acc : List ChatItem) (hv : ¬ validItem ks kf item = true)
    (hstop : ¬ keepN ≤ acc.length) :
    truncateLoop keepN ks kf (item :: rest) acc = truncateLoop keepN ks kf rest acc := by
  simp [truncateLoop, hv, hstop]

theorem truncateLoop_append (keepN : Nat) (ks kf : Bool) :
    ∀ (l acc : List ChatItem), ∃ s, truncateLoop keepN ks kf l acc = acc ++ s ∧ s.Sublist l := by
  intro l
  induction l with
  | nil => intro acc; exact ⟨[], by simp [truncateLoop]⟩
  | cons item rest ih =>
    intro acc
    by_cases hv : validItem ks kf item = true
    · by_cases hstop : keepN ≤ acc.length + 1
      · exact ⟨[item], truncateLoop_valid_stop keepN ks kf item rest acc hv hstop,
          (List.nil_sublist rest).cons₂ item⟩
      · obtain ⟨s, hs, hsub⟩ := ih (acc ++ [item])
        refine ⟨item :: s, ?_, hsub.cons₂ item⟩
        rw [truncateLoop_valid_go keepN ks kf item rest acc hv hstop, hs]
        simp
    · by_cases hstop : keepN ≤ acc.length
      · exact ⟨[], by
          rw [truncateLoop_invalid_stop keepN ks kf item rest acc hv hstop]; simp,
          List.nil_sublist _⟩
      · obtain ⟨s, hs, hsub⟩ := ih acc
        refine ⟨s, ?_, hsub.cons item⟩
        rw [truncateLoop_invalid_go keepN ks kf item rest acc hv hstop, hs]

theorem truncateLoop_spec (keepN : Nat) (ks kf : Bool) :
    ∀ (l acc : List ChatItem), acc.length < keepN →
      truncateLoop keepN ks kf l acc =
        acc ++ (l.filter (validItem ks kf)).take (keepN - acc.length) := by
  intro l
  induction l with
  | nil => intro acc _; simp [truncateLoop]
  | cons item rest ih =>
    intro acc hlen
    by_cases hv : validItem ks kf item = true
    · by_cases hstop : keepN ≤ acc.length + 1
      · have heq : keepN - acc.length = 1 := by omega
        rw [truncateLoop_valid_stop keepN ks kf item rest acc hv hstop]
        simp [List.filter_cons, hv, heq]
      · have h2 : (acc ++ [item]).length < keepN := by
          simp only [List.length_append, List.length_cons, List.length_nil]
          omega
        rw [truncateLoop_valid_go keepN ks kf item rest acc hv hstop, ih (acc ++ [item]) h2]
        have hsub : keepN - acc.length = (keepN - (acc.length + 1)) + 1 := by omega
        simp only [List.filter_cons, hv, if_true, List.length_append, List.length_cons,
          List.length_nil, hsub, List.take_succ_cons, List.append_assoc,
          List.singleton_append]
    · have hstop : ¬ keepN ≤ acc.length := by omega
      rw [truncateLoop_invalid_go keepN ks kf item rest acc hv hstop, ih acc hlen]
      simp [List.filter_cons, hv]

theorem truncate_chat_ctx_eq (items : List ChatItem) (keepN : Nat) (ks kf : Bool)
    (hk : 1 ≤ keepN) :
    truncate_chat_ctx items keepN ks kf =
      (lastEligible items keepN ks kf).dropWhile ChatItem.isToolItem := by
  unfold truncate_chat_ctx lastEligible
  rw [truncateLoop_spec keepN ks kf items.reverse [] (by simpa using hk)]
  simp [List.filter_reverse]

theorem truncate_chat_ctx_sublist (items : List ChatItem) (keepN : Nat) (ks kf : Bool) :
    (truncate_chat_ctx items keepN ks kf).Sublist items := by
  unfold truncate_chat_ctx
  obtain ⟨s, hs, hsub⟩ := truncateLoop_append keepN ks kf items.reverse []
  rw [hs]
  simp only [List.nil_append]
  have h1 : (s.reverse.dropWhile ChatItem.isToolItem).Sublist s.reverse :=
    List.dropWhile_sublist _
  have h2 : s.reverse.Sublist items := by
    have := hsub.reverse
    simpa using this
  exact h1.trans h2

/-! Customer-support data model (customer_support_agent.py). -/

/-- The `IssueType` string enum (customer_support_agent.py lines 94-98). -/
inductive IssueType
  | RETURN
  | TECHNICAL
  | BILLING
  | OTHER
deriving DecidableEq

/-- String value of an `IssueType` member. -/
def IssueType.value : IssueType → String
  | .RETURN => "return"
  | .TECHNICAL => "technical"
  | .BILLING => "billing"
  | .OTHER => "other"

/-- An agent instance: the embedding keeps the parts of a livekit `Agent` that
the claims mention, its class name and its chat-context buffer of items. -/
structure Agent where
  name : String
  chat_ctx : List ChatItem
deriving DecidableEq

/-- The configuration error raised when a handoff names an unregistered agent
(the `KeyError` from `userdata.agents[name]`, customer_support_agent.py line
243; the spec calls it `UnknownAgentError`). -/
structure UnknownAgentError where
  key : String
deriving DecidableEq

/-- The `UserData` dataclass of customer_support_agent.py (lines 101-130).
Python `Optional[T] = None` fields become `Option`; `float` becomes `ℚ`;
the `agents` dict becomes an association list. -/
structure UserData where
  customer_name : Option String
  customer_email : Option String
  customer_phone : Option String
  order_number : Option String
  product_id : Option String
  issue_type : Option IssueType
  issue_description : Option String
  return_reason : Option String
  return_approved : Bool
  return_label_sent : Bool
  refund_amount : Option ℚ
  refund_approved : Bool
  escalated : Bool
  escalation_reason : Option String
  satisfaction_rating : Option Int
  agents : List (String × Agent)
  prev_agent : Option Agent
deriving DecidableEq

/-- A fresh `UserData()` with every dataclass default. -/
def emptyUserData : UserData :=
  ⟨none, none, none, none, none, none, none, none, false, false, none, false,
   false, none, none, [], none⟩

/-- Python truthiness of an `Optional[str]`: `None` and `""` are falsy. -/
def strOptTruthy : Option String → Bool
  | none => false
  | some s => !(s == "")

/-- Python truthiness of an `Optional[int]`: `None` and `0` are falsy. -/
def intOptTruthy : Option Int → Bool
  | none => false
  | some n => !(n == 0)

/-- Python `value or "unknown"` on an `Optional[str]` (truthiness: `None` and
`""` both fall back to `"unknown"`). -/
def orUnknown : Option String → String
  | none => "unknown"
  | some s => if s == "" then "unknown" else s

/-- The `customer_info` sub-dict built by `UserData.summarize` (lines 134-138). -/
structure CustomerInfo where
  name : String
  email : String
  phone : String
deriving DecidableEq

/-- The `issue_details` sub-dict (lines 139-144); the `issue_type` entry is the
enum's string value, or `"unknown"` when unset. -/
structure IssueDetails where
  order_number : String
  product_id : String
  issue_type : String
  description : String
deriving DecidableEq

/-- The `return_status` sub-dict (lines 145-149). -/
structure ReturnStatus where
  reason : Option String
  approved : Bool
  label_sent : Bool
deriving DecidableEq

/-- The `billing_status` sub-dict (lines 150-153). -/
structure BillingStatus where
  refund_amount : Option ℚ
  approved : Bool
deriving DecidableEq

/-- The `escalation` sub-dict (lines 154-157). -/
structure EscalationStatus where
  escalated : Bool
  reason : Option String
deriving DecidableEq

/-- The full dictionary `data` built by `UserData.summarize` (lines 133-159):
`return_status` is present only when `issue_type == IssueType.RETURN`, and
`billing_status` only when `issue_type == IssueType.BILLING`. -/
structure SummaryData where
  customer_info : CustomerInfo
  issue_details : IssueDetails
  return_status : Option ReturnStatus
  billing_status : Option BillingStatus
  escalation : EscalationStatus
  satisfaction : Option Int
deriving DecidableEq

/-- Builds the `data` dictionary of `UserData.summarize` (lines 133-159). -/
def summarizeData (u : UserData) : SummaryData :=
  { customer_info :=
      ⟨orUnknown u.customer_name, orUnknown u.customer_email, orUnknown u.customer_phone⟩
    issue_details :=
      ⟨orUnknown u.order_number, orUnknown u.product_id,
       (match u.issue_type with
        | none => "unknown"
        | some t => t.value),
       orUnknown u.issue_description⟩
    return_status :=
      if u.issue_type == some IssueType.RETURN then
        some ⟨u.return_reason, u.return_approved, u.return_label_sent⟩
      else none
    billing_status :=
      if u.issue_type == some IssueType.BILLING then
        some ⟨u.refund_amount, u.refund_approved⟩
      else none
    escalation := ⟨u.escalated, u.escalation_reason⟩
    satisfaction := u.satisfaction_rating }

/-- Rendering of a plain YAML string scalar (an empty string prints as a pair
of single quotes, written here with escapes). -/
def yamlStr (s : String) : String := if s == "" then "\x27\x27" else s

/-- Rendering of an optional YAML string scalar (`None` prints as `null`). -/
def yamlOptStr : Option String → String
  | none => "null"
  | some s => yamlStr s

/-- Rendering of a YAML boolean. -/
def yamlBool : Bool → String
  | true => "true"
  | false => "false"

/-- One decimal digit character, as the code point 48 + d. -/
def digitChar (d : Nat) : Char := Char.ofNat (48 + d)

/-- Standard decimal rendering of a natural number, most significant digit
first (the same character sequence `str(n)` produces). -/
def natDigits (n : Nat) : List Char :=
  if _h : n < 10 then [digitChar n]
  else natDigits (n / 10) ++ [digitChar (n % 10)]
decreasing_by
  exact Nat.div_lt_self (by omega) (by omega)

/-- Decimal rendering of an integer, with a leading minus sign when
negative. -/
def intDigits : Int → List Char
  | .ofNat n => natDigits n
  | .negSucc n => '-' :: natDigits (n + 1)

/-- Decimal rendering of a rational: the integer part alone when the
denominator is 1, otherwise `num/den` (the rendering `str` gives the exact
value the Python float field holds, modelled as a rational). -/
def ratRepr (q : ℚ) : String :=
  if q.den = 1 then String.mk (intDigits q.num)
  else String.mk (intDigits q.num ++ '/' :: natDigits q.den)

/-- Rendering of an optional YAML integer. -/
def yamlOptInt : Option Int → String
  | none => "null"
  | some n => String.mk (intDigits n)

/-- Rendering of an optional YAML number held as a rational. -/
def yamlOptRat : Option ℚ → String
  | none => "null"
  | some q => ratRepr q

/-- The `billing_status` block of the dumped summary. -/
def billingSection (d : SummaryData) : String :=
  match d.billing_status with
  | none => "billing_status: null\n"
  | some b =>
      "billing_status:\n  approved: " ++ yamlBool b.approved ++
      "\n  refund_amount: " ++ yamlOptRat b.refund_amount ++ "\n"

/-- The `customer_info` block of the dumped summary. -/
def customerSection (d : SummaryData) : String :=
  "customer_info:\n  email: " ++ yamlStr d.customer_info.email ++
  "\n  name: " ++ yamlStr d.customer_info.name ++
  "\n  phone: " ++ yamlStr d.customer_info.phone ++ "\n"

/-- The `escalation` block of the dumped summary. -/
def escalSection (d : SummaryData) : String :=
  "escalation:\n  escalated: " ++ yamlBool d.escalation.escalated ++
  "\n  reason: " ++ yamlOptStr d.escalation.reason ++ "\n"

/-- The `issue_details` block of the dumped summary. -/
def issueSection (d : SummaryData) : String :=
  "issue_details:\n  description: " ++ yamlStr d.issue_details.description ++
  "\n  issue_type: " ++ yamlStr d.issue_details.issue_type ++
  "\n  order_number: " ++ yamlStr d.issue_details.order_number ++
  "\n  product_id: " ++ yamlStr d.issue_details.product_id ++ "\n"

/-- The `return_status` block of the dumped summary. -/
def retSection (d : SummaryData) : String :=
  match d.return_status with
  | none => "return_status: null\n"
  | some r =>
      "return_status:\n  approved: " ++ yamlBool r.approved ++
      "\n  label_sent: " ++ yamlBool r.label_sent ++
      "\n  reason: " ++ yamlOptStr r.reason ++ "\n"

/-- The `satisfaction` line of the dumped summary. -/
def satSection (d : SummaryData) : String :=
  "satisfaction: " ++ yamlOptInt d.satisfaction ++ "\n"

/-- `UserData.summarize` (lines 132-160): `yaml.dump(data)` of the summary
dictionary — block style with alphabetically sorted keys, as pyyaml produces
by default. -/
def UserData.summarize (u : UserData) : String :=
  billingSection (summarizeData u) ++ customerSection (summarizeData u) ++
  escalSection (summarizeData u) ++ issueSection (summarizeData u) ++
  retSection (summarizeData u) ++ satSection (summarizeData u)

/-! Text parsers for the serialized summary, used to state the amended C8
round-trip at the level of the dumped text itself. -/

/-- The `update_customer_info` tool (customer_support_agent.py lines 167-193):
each field is assigned only when its argument is truthy; the reply names the
updated fields. -/
def update_customer_info (name email phone : Option String) (u : UserData) :
    UserData × String :=
  let u := if strOptTruthy name then { u with customer_name := name } else u
  let u := if strOptTruthy email then { u with customer_email := email } else u
  let u := if strOptTruthy phone then { u with customer_phone := phone } else u
  let updated_fields :=
    (if strOptTruthy name then ["name"] else []) ++
    (if strOptTruthy email then ["email"] else []) ++
    (if strOptTruthy phone then ["phone"] else [])
  (u, "Thank you, I\x27ve updated your " ++ String.intercalate ", " updated_fields ++ ".")

/-- `BaseAgent._transfer_to_agent` (customer_support_agent.py lines 240-246,
real_estate_agent.py lines 187-193): look up the target in the registry (a
missing key raises, before any mutation), set `prev_agent` to the current
agent, and return the target with a confirmation string. -/
def _transfer_to_agent (name : String) (current_agent : Agent) (u : UserData) :
    Except UnknownAgentError ((Agent × String) × UserData) :=
  match u.agents.lookup name with
  | none => .error ⟨name⟩
  | some next_agent =>
      .ok ((next_agent, "Transferring to " ++ name ++ "."),
           { u with prev_agent := some current_agent })

/-- Content of the synthetic system message appended by `BaseAgent.on_enter`
(customer_support_agent.py lines 232-236). -/
def onEnterSystemMessage (agent_name : String) (u : UserData) : String :=
  "You are " ++ agent_name ++ " agent. Current user data is " ++ u.summarize

/-- One product of the sample catalog (customer_support_agent.py lines 31-63);
prices are exact rationals standing for the Python floats. -/
structure Product where
  id : String
  name : String
  price : ℚ
  warranty : Option String
  return_period_days : Option Nat
  billing_cycle : Option String
  categories : List String
deriving DecidableEq

/-- `PRODUCT_DATABASE` (customer_support_agent.py lines 31-63). -/
def PRODUCT_DATABASE : List Product :=
  [⟨"P001", "Premium Wireless Headphones", 19999/100, some "1 year limited warranty",
    some 30, none, ["Electronics", "Audio"]⟩,
   ⟨"P002", "Ultra HD Smart TV 55\"", 69999/100, some "2 year limited warranty",
    some 30, none, ["Electronics", "Television"]⟩,
   ⟨"P003", "Ergonomic Office Chair", 24999/100, some "5 year limited warranty",
    some 60, none, ["Furniture", "Office"]⟩,
   ⟨"P004", "Premium Subscription", 1299/100, none, none, some "monthly",
    ["Services", "Subscription"]⟩]

/-- Two-decimal money rendering approximating Python `f"{amount:.2f}"`. -/
def formatMoney (q : ℚ) : String :=
  let cents : Int := (q * 100 + 1/2).floor
  let sign := if cents < 0 then "-" else ""
  let c := cents.natAbs
  let d := c % 100
  sign ++ toString (c / 100) ++ "." ++ (if d < 10 then "0" else "") ++ toString d

/-- `ReturnsAgent.process_return` (customer_support_agent.py lines 361-391):
guidance string when `order_number`/`product_id` are missing, product lookup,
subscription short-circuit, otherwise record the reason and approve. -/
def process_return (return_reason : String) (u : UserData) : UserData × String :=
  if !(strOptTruthy u.order_number) || !(strOptTruthy u.product_id) then
    (u, "Before I can process your return, I\x27ll need your order number and the product ID. Do you have those available?")
  else
    match PRODUCT_DATABASE.find? (fun p => p.id == u.product_id.getD "") with
    | none =>
        (u, "I\x27m unable to find product ID " ++ u.product_id.getD "" ++
            " in our system. Could you please verify the product ID?")
    | some product_found =>
        if product_found.categories.contains "Subscription" then
          (u, "This appears to be a subscription service, which follows our digital services cancellation policy. Let me transfer you to our billing department who can help with cancellations and refunds.")
        else
          ({ u with return_reason := some return_reason, return_approved := true },
           "Thank you for providing that information. Based on our policy, your return has been approved. Would you like me to email you a return shipping label?")

/-- `BillingAgent.process_refund` (customer_support_agent.py lines 513-533):
guidance strings when `order_number` or `customer_email` are missing,
otherwise record the amount and approve. -/
def process_refund (amount : ℚ) (u : UserData) : UserData × String :=
  if !(strOptTruthy u.order_number) then
    (u, "Before I can process a refund, I\x27ll need your order number. Do you have that available?")
  else if !(strOptTruthy u.customer_email) then
    (u, "I\x27ll need your email address to process the refund. Could you please provide that?")
  else
    ({ u with refund_amount := some amount, refund_approved := true },
     "I\x27ve processed a refund of $" ++ formatMoney amount ++
     " for your order. The refund will be credited back to your original payment method within 5-7 business days. You\x27ll receive a confirmation email at " ++
     u.customer_email.getD "" ++ ". Is there anything else I can help you with today?")

/-- The five agents registered by `entrypoint` (customer_support_agent.py
lines 631-640), each starting with an empty chat buffer. -/
def entrypoint_userdata : UserData :=
  { emptyUserData with
      agents :=
        [("initial", ⟨"InitialSupport", []⟩),
         ("returns", ⟨"ReturnsAgent", []⟩),
         ("technical", ⟨"TechnicalAgent", []⟩),
         ("billing", ⟨"BillingAgent", []⟩),
         ("manager", ⟨"ManagerAgent", []⟩)] }

/-! Real-estate data model (real_estate_agent.py), for the parts the claims
touch: the preference dict and its truthiness-gated update tool. -/

namespace RealEstate

/-- The `property_preferences` dict created with fixed keys
(real_estate_agent.py lines 79-86). -/
structure PropertyPreferences where
  min_price : Option Int
  max_price : Option Int
  min_bedrooms : Option Int
  min_bathrooms : Option Int
  property_type : Option String
  location : Option String
deriving DecidableEq

/-- The real-estate `UserData` dataclass (real_estate_agent.py lines 73-98). -/
structure UserData where
  customer_name : Option String
  customer_phone : Option String
  customer_email : Option String
  property_preferences : PropertyPreferences
  viewed_properties : List String
  interested_properties : List String
  viewing_date : Option String
  viewing_time : Option String
  prequalified : Bool
  prequalified_amount : Option Int
  agents : List (String × Agent)
  prev_agent : Option Agent
deriving DecidableEq

/-- A fresh real-estate `UserData()` with every dataclass default. -/
def emptyUserData : UserData :=
  ⟨none, none, none, ⟨none, none, none, none, none, none⟩, [], [], none, none,
   false, none, [], none⟩

/-- `PropertyFinder.update_property_preferences` (real_estate_agent.py lines
272-299): each preference key is assigned only when its argument is truthy
(`None`, `0` and `""` are all skipped). -/
def update_property_preferences (min_price max_price min_bedrooms min_bathrooms : Option Int)
    (property_type location : Option String) (u : UserData) : UserData × String :=
  let p := u.property_preferences
  let p := if intOptTruthy min_price then { p with min_price := min_price } else p
  let p := if intOptTruthy max_price then { p with max_price := max_price } else p
  let p := if intOptTruthy min_bedrooms then { p with min_bedrooms := min_bedrooms } else p
  let p := if intOptTruthy min_bathrooms then { p with min_bathrooms := min_bathrooms } else p
  let p := if strOptTruthy property_type then { p with property_type := property_type } else p
  let p := if strOptTruthy location then { p with location := location } else p
  ({ u with property_preferences := p },
   "I\x27ve updated your property preferences. Now I can search for properties that match your criteria.")

end RealEstate

/-! The Session Driver's turn loop. -/

/-- One language-model output within a turn: either a request to run a tool
(paired with the result the tool run produces) or a final narrated reply. -/
inductive LlmOutput
  | toolRequest (name : String) (result : String)
  | reply (text : String)
deriving DecidableEq

/-- Modelled from the spec: the turn loop with its maximum-steps bound. The
loop itself lives in the external livekit runtime (`AgentSession`), not under
src/; the scripts only configure it with `max_tool_steps=5`
(customer_support_agent.py lines 641-648, real_estate_agent.py 515-522).
Following spec sections 5 and 7: consume model outputs in order, dispatch a
tool round-trip while budget remains, stop once the bound is reached and fall
back to narrating the partial result gathered so far (here: the most recent
tool result). Returns the number of tool dispatches and the user-facing
reply. -/
def turnLoop (fallback : String) : Nat → List LlmOutput → Nat × String
  | _, [] => (0, fallback)
  | _, .reply t :: _ => (0, t)
  | 0, .toolRequest _ _ :: _ => (0, fallback)
  | fuel + 1, .toolRequest _ result :: rest =>
      let r := turnLoop result fuel rest
      (r.1 + 1, r.2)

/-- Modelled from the spec: a turn starts with the full step budget
(`max_tool_steps`) and an initial fallback narration. -/
def runTurn (max_tool_steps : Nat) (outputs : List LlmOutput) : Nat × String :=
  turnLoop "Let me summarize what I have so far." max_tool_steps outputs

/-! Claim theorems. -/

/-- C1: for every input list of conversation items and every combination of
the `keepLastN`, `keepSystemMessages` and `keepToolItems` arguments, the
sequence returned by `_truncate_chat_ctx` never has a `function_call` or
`function_call_output` item as its first element. -/
theorem truncate_never_starts_with_tool_item (items : List ChatItem) (keepN : Nat)
    (ks kf : Bool) (item : ChatItem)
    (h : (truncate_chat_ctx items keepN ks kf).head? = some item) :
    item.isToolItem = false := by
  have hd := List.head?_dropWhile_not ChatItem.isToolItem
    ((truncateLoop keepN ks kf items.reverse []).reverse)
  unfold truncate_chat_ctx at h
  rw [h] at hd
  exact hd

theorem truncate_never_starts_with_tool_item_witness :
    (truncate_chat_ctx [ChatItem.message "1" ChatRole.user "hello"] 6 false false).head? =
      some (ChatItem.message "1" ChatRole.user "hello") ∧
    (ChatItem.message "1" ChatRole.user "hello").isToolItem = false :=
  ⟨by decide,
   truncate_never_starts_with_tool_item [ChatItem.message "1" ChatRole.user "hello"] 6
     false false (ChatItem.message "1" ChatRole.user "hello") (by decide)⟩

/-- C2: for every input list with at least 20 eligible items, truncation with
`keepLastN = 6` returns exactly the 6 most recent eligible items (minus any
leading tool items dropped by the leading-tool-item rule), in their original
chronological order. -/
theorem truncate_keeps_last_six_eligible (items : List ChatItem) (ks kf : Bool)
    (h : 20 ≤ (items.filter (validItem ks kf)).length) :
    truncate_chat_ctx items 6 ks kf =
      (lastEligible items 6 ks kf).dropWhile ChatItem.isToolItem ∧
    (lastEligible items 6 ks kf).length = 6 := by
  refine ⟨truncate_chat_ctx_eq items 6 ks kf (by omega), ?_⟩
  unfold lastEligible
  simp only [List.length_reverse, List.length_take]
  omega

theorem truncate_keeps_last_six_eligible_witness :
    20 ≤ (((List.range 20).map
        (fun i => ChatItem.message (toString i) ChatRole.user "x")).filter
          (validItem false false)).length ∧
    (truncate_chat_ctx ((List.range 20).map
        (fun i => ChatItem.message (toString i) ChatRole.user "x")) 6 false false =
      (lastEligible ((List.range 20).map
        (fun i => ChatItem.message (toString i) ChatRole.user "x")) 6 false false).dropWhile
          ChatItem.isToolItem ∧
    (lastEligible ((List.range 20).map
        (fun i => ChatItem.message (toString i) ChatRole.user "x")) 6 false false).length = 6) :=
  ⟨by decide, truncate_keeps_last_six_eligible _ false false (by decide)⟩

/-- Helper for C3: a single carry-over step preserves uniqueness of item ids,
because the truncated slice is a sublist of the previous history and the
id-filter removes every id already present in the receiving buffer. -/
theorem carry_over_ids_nodup (buffer prev : List ChatItem)
    (hb : (buffer.map ChatItem.id).Nodup) (hp : (prev.map ChatItem.id).Nodup) :
    ((carry_over buffer prev).map ChatItem.id).Nodup := by
  unfold carry_over
  simp only [List.map_append]
  rw [List.nodup_append]
  refine ⟨hb, ?_, ?_⟩
  · have h1 : (truncate_chat_ctx prev 6 false true).Sublist prev :=
      truncate_chat_ctx_sublist prev 6 false true
    have h2 : ((truncate_chat_ctx prev 6 false true).filter
        (fun item => decide (item.id ∉ buffer.map ChatItem.id))).Sublist
          (truncate_chat_ctx prev 6 false true) :=
      List.filter_sublist _
    exact ((h2.trans h1).map ChatItem.id).nodup hp
  · intro a ha hmem
    obtain ⟨item, hitem, hid⟩ := List.mem_map.1 hmem
    have hfilter := (List.mem_filter.1 hitem).2
    rw [decide_eq_true_eq] at hfilter
    exact hfilter (hid ▸ ha)

/-- C3: the entry-hook history carry-over is idempotent with respect to item
ids — for every receiving buffer and previous history (whose items carry
session-unique ids), performing the carry-over step twice in sequence never
produces a buffer containing two items with the same id. -/
theorem carry_over_twice_no_duplicate_ids (buffer prev : List ChatItem)
    (hb : (buffer.map ChatItem.id).Nodup) (hp : (prev.map ChatItem.id).Nodup) :
    ((carry_over (carry_over buffer prev) prev).map ChatItem.id).Nodup :=
  carry_over_ids_nodup _ _ (carry_over_ids_nodup _ _ hb hp) hp

theorem carry_over_twice_no_duplicate_ids_witness :
    (([ChatItem.message "a" ChatRole.user "x"].map ChatItem.id).Nodup ∧
     ([ChatItem.message "b" ChatRole.user "y",
       ChatItem.functionCall "c" "f" "args"].map ChatItem.id).Nodup) ∧
    ((carry_over (carry_over [ChatItem.message "a" ChatRole.user "x"]
        [ChatItem.message "b" ChatRole.user "y", ChatItem.functionCall "c" "f" "args"])
        [ChatItem.message "b" ChatRole.user "y",
         ChatItem.functionCall "c" "f" "args"]).map ChatItem.id).Nodup :=
  ⟨⟨by decide, by decide⟩,
   carry_over_twice_no_duplicate_ids _ _ (by decide) (by decide)⟩

/-- C4: for every agent name that is not a key of the session's agents
registry, `_transfer_to_agent` fails with the configuration error (the spec's
`UnknownAgentError`; in the source, the `KeyError` of `userdata.agents[name]`)
and never returns a narrated `(Agent, string)` result. -/
theorem transfer_unknown_agent_fails (name : String) (current : Agent) (u : UserData)
    (h : u.agents.lookup name = none) :
    _transfer_to_agent name current u = Except.error ⟨name⟩ ∧
    ∀ r, _transfer_to_agent name current u ≠ Except.ok r := by
  unfold _transfer_to_agent
  rw [h]
  exact ⟨rfl, fun r hr => Except.noConfusion hr⟩

theorem transfer_unknown_agent_fails_witness :
    entrypoint_userdata.agents.lookup "concierge" = none ∧
    (_transfer_to_agent "concierge" ⟨"InitialSupport", []⟩ entrypoint_userdata =
        Except.error ⟨"concierge"⟩ ∧
     ∀ r, _transfer_to_agent "concierge" ⟨"InitialSupport", []⟩ entrypoint_userdata ≠
        Except.ok r) :=
  ⟨by decide, transfer_unknown_agent_fails "concierge" _ _ (by decide)⟩

/-- Agent A of the C5 scenario: the initially active `InitialSupport` agent. -/
def agentInitial : Agent := ⟨"InitialSupport", []⟩

/-- SessionState of the C5 scenario after `update_customer_info` ran under
agent A on the fresh entrypoint state with `name = "Ada"`. -/
def c5_after_update : UserData :=
  (update_customer_info (some "Ada") none none entrypoint_userdata).1

/-- SessionState of the C5 scenario after the handoff to agent B. -/
def c5_after_transfer : UserData :=
  { c5_after_update with prev_agent := some agentInitial }

set_option maxRecDepth 20000 in
/-- C5: starting from the empty SessionState of the entrypoint, after a tool
run under agent A sets the customer name to `"Ada"` and control is handed off
to agent B (`ReturnsAgent`), the synthetic system message appended by B's
entry hook contains the string `"Ada"`: the populated field appears in the
serialized summary the new agent receives. -/
theorem state_propagates_across_handoff :
    _transfer_to_agent "returns" agentInitial c5_after_update =
      Except.ok ((⟨"ReturnsAgent", []⟩, "Transferring to returns."), c5_after_transfer) ∧
    "Ada".toList <:+: (onEnterSystemMessage "ReturnsAgent" c5_after_transfer).toList := by
  refine ⟨rfl, by decide⟩

/-- C6: for every registered agent name, `_transfer_to_agent` mutates only the
`prev_agent` field of the session state — setting it to the currently active
agent — leaves every other field (customer fields, agents registry and with it
every agent's chat buffer, domain fields) unchanged, and returns the target
agent together with the transfer-confirmation string. -/
theorem transfer_frame_effect (name : String) (current : Agent) (u : UserData) (a : Agent)
    (h : u.agents.lookup name = some a) :
    _transfer_to_agent name current u =
      Except.ok ((a, "Transferring to " ++ name ++ "."),
        { u with prev_agent := some current }) ∧
    ({ u with prev_agent := some current } : UserData).customer_name = u.customer_name ∧
    ({ u with prev_agent := some current } : UserData).customer_email = u.customer_email ∧
    ({ u with prev_agent := some current } : UserData).customer_phone = u.customer_phone ∧
    ({ u with prev_agent := some current } : UserData).order_number = u.order_number ∧
    ({ u with prev_agent := some current } : UserData).product_id = u.product_id ∧
    ({ u with prev_agent := some current } : UserData).issue_type = u.issue_type ∧
    ({ u with prev_agent := some current } : UserData).issue_description = u.issue_description ∧
    ({ u with prev_agent := some current } : UserData).return_reason = u.return_reason ∧
    ({ u with prev_agent := some current } : UserData).return_approved = u.return_approved ∧
    ({ u with prev_agent := some current } : UserData).return_label_sent = u.return_label_sent ∧
    ({ u with prev_agent := some current } : UserData).refund_amount = u.refund_amount ∧
    ({ u with prev_agent := some current } : UserData).refund_approved = u.refund_approved ∧
    ({ u with prev_agent := some current } : UserData).escalated = u.escalated ∧
    ({ u with prev_agent := some current } : UserData).escalation_reason = u.escalation_reason ∧
    ({ u with prev_agent := some current } : UserData).satisfaction_rating = u.satisfaction_rating ∧
    ({ u with prev_agent := some current } : UserData).agents = u.agents ∧
    ({ u with prev_agent := some current } : UserData).prev_agent = some current := by
  unfold _transfer_to_agent
  rw [h]
  exact ⟨rfl, rfl, rfl, rfl, rfl, rfl, rfl, rfl, rfl, rfl, rfl, rfl, rfl, rfl, rfl,
    rfl, rfl, rfl⟩

theorem transfer_frame_effect_witness :
    entrypoint_userdata.agents.lookup "returns" = some ⟨"ReturnsAgent", []⟩ ∧
    (_transfer_to_agent "returns" agentInitial entrypoint_userdata =
      Except.ok ((⟨"ReturnsAgent", []⟩, "Transferring to " ++ "returns" ++ "."),
        { entrypoint_userdata with prev_agent := some agentInitial })) :=
  ⟨by decide,
   (transfer_frame_effect "returns" agentInitial entrypoint_userdata
     ⟨"ReturnsAgent", []⟩ (by decide)).1⟩

/-- C7: a tool operation invoked while its SessionState precondition is unmet
(here `process_return` and `process_refund` with `order_number` unset) returns
a guidance string asking for the missing datum and performs no state mutation:
the returned SessionState is the input state, its required field still
unset. -/
theorem tool_precondition_soft_fail (u : UserData) (return_reason : String) (amount : ℚ)
    (h : u.order_number = none) :
    process_return return_reason u =
      (u, "Before I can process your return, I\x27ll need your order number and the product ID. Do you have those available?") ∧
    process_refund amount u =
      (u, "Before I can process a refund, I\x27ll need your order number. Do you have that available?") := by
  constructor
  · unfold process_return
    rw [h]
    rfl
  · unfold process_refund
    rw [h]
    rfl

theorem tool_precondition_soft_fail_witness :
    emptyUserData.order_number = none ∧
    (process_return "defective" emptyUserData =
      (emptyUserData, "Before I can process your return, I\x27ll need your order number and the product ID. Do you have those available?") ∧
     process_refund 25 emptyUserData =
      (emptyUserData, "Before I can process a refund, I\x27ll need your order number. Do you have that available?")) :=
  ⟨rfl, tool_precondition_soft_fail emptyUserData "defective" 25 rfl⟩

/-- Helper for C9: the turn loop never dispatches more tool round-trips than
its remaining budget, whatever the fallback narration is. -/
theorem turnLoop_dispatch_le (outputs : List LlmOutput) :
    ∀ (fallback : String) (fuel : Nat), (turnLoop fallback fuel outputs).1 ≤ fuel := by
  induction outputs with
  | nil => intro fb fuel; simp [turnLoop]
  | cons o rest ih =>
    intro fb fuel
    cases o with
    | reply t => cases fuel <;> simp [turnLoop]
    | toolRequest n r =>
      cases fuel with
      | zero => simp [turnLoop]
      | succ f =>
        have := ih r f
        simp only [turnLoop]
        omega

/-- C9: the turn loop never dispatches more tool round-trips than the
configured `max_tool_steps` bound, and in the spec's scenario — the model
requests 7 tool round-trips against a limit of 5 — it dispatches exactly 5
tools, stops, and still terminates the turn with a user-facing narration (the
most recent partial tool result). -/
theorem turn_loop_respects_step_limit :
    (∀ (max_tool_steps : Nat) (outputs : List LlmOutput),
        (runTurn max_tool_steps outputs).1 ≤ max_tool_steps) ∧
    runTurn 5
      [LlmOutput.toolRequest "t1" "r1", LlmOutput.toolRequest "t2" "r2",
       LlmOutput.toolRequest "t3" "r3", LlmOutput.toolRequest "t4" "r4",
       LlmOutput.toolRequest "t5" "r5", LlmOutput.toolRequest "t6" "r6",
       LlmOutput.toolRequest "t7" "r7", LlmOutput.reply "model reply"] = (5, "r5") :=
  ⟨fun m o => turnLoop_dispatch_le o _ m, by decide⟩

/-- C10 (implicit): the field-update tools gate each assignment on Python
truthiness of the supplied argument, so falsy but meaningful values are
silently ignored — `update_property_preferences` with numeric arguments `0`
and empty-string `property_type`/`location` leaves the preference dict
unchanged, and `update_customer_info` with empty-string or `None` arguments
leaves the customer fields unchanged, for every prior state. -/
theorem falsy_arguments_ignored (u : RealEstate.UserData) (u2 : UserData) :
    (RealEstate.update_property_preferences (some 0) (some 0) (some 0) (some 0)
        (some "") (some "") u).1 = u ∧
    (RealEstate.update_property_preferences (some 0) none none none none none
        u).1.property_preferences.min_price = u.property_preferences.min_price ∧
    (update_customer_info (some "") (some "") (some "") u2).1 = u2 ∧
    (update_customer_info none none none u2).1 = u2 :=
  ⟨rfl, rfl, rfl, rfl⟩

end Agents
